import Mathlib

/-!
Verification development for the DevSwarm AI engine orchestration core.

The definitions below are a shallow embedding of the Python source under
ai-engine/: the routing functions and graph wiring of graph.py, the task
dispatcher of services/agent_dispatcher.py, the queue consumer of
services/task_queue_worker.py, the graph runner of services/graph_execution.py,
and the generic agent lifecycle of core/base_agent.py.  Database and queue
ports are modelled as an explicit task store plus an append-only event trace;
the opaque specialist calls (LLM chains) are modelled as arbitrary outcome
parameters, so every theorem quantifies over all possible specialist
behaviours.
-/

namespace DevSwarm

/-- TaskStatusEnum from models.py. -/
inductive TaskStatus where
  | backlog
  | inProgress
  | review
  | done
  | blocked
deriving DecidableEq, Repr

/-- String value of each TaskStatusEnum member (models.py). -/
def TaskStatus.val : TaskStatus → String
  | .backlog => "Backlog"
  | .inProgress => "In Progress"
  | .review => "Review"
  | .done => "Done"
  | .blocked => "Blocked"

/-- AgentStatusEnum from models.py. -/
inductive AgentStatus where
  | idle
  | working
  | meeting
  | error
  | clockedOut
deriving DecidableEq, Repr

/-- NodeName from models.py: the workflow graph node identifiers. -/
inductive NodeName where
  | orchestrator
  | crawler
  | researcher
  | viralEngineer
  | comms
  | devops
  | archivist
  | frontendDesigner
deriving DecidableEq, Repr

/-- String value of each NodeName member (models.py). -/
def NodeName.val : NodeName → String
  | .orchestrator => "Orchestrator"
  | .crawler => "Crawler"
  | .researcher => "Researcher"
  | .viralEngineer => "ViralEngineer"
  | .comms => "Comms"
  | .devops => "DevOps"
  | .archivist => "Archivist"
  | .frontendDesigner => "FrontendDesigner"

/-- langgraph terminal marker END. -/
def END : String := "__end__"

/-- health_report payload written by the devops agent: a dict read back with
dict.get by the dispatcher message builder; absent keys are none. -/
structure HealthReport where
  system_status : Option String := none
  diagnosis : Option String := none
  agents_recovered : Option Int := none
deriving DecidableEq, Repr

/-- OfficeState from core/state.py.  Free-form dict payloads are modelled as
string association lists; messages are kept abstract as raw strings since no
claim inspects them. -/
structure OfficeState where
  active_tasks : List String := []
  messages : List String := []
  routing_decisions : List (String × String) := []
  delegated_agents : List String := []
  delegated_task_ids : List String := []
  research_findings : List (String × String) := []
  content_drafts : List (List (String × String)) := []
  crawl_results : List (List (String × String)) := []
  health_report : HealthReport := {}
  design_output : List (String × String) := []
  comms_processed : Int := 0
  kb_entries_organized : Int := 0
  current_goal : String := ""
  error : String := ""
deriving DecidableEq, Repr

/-- create_initial_state from core/state.py. -/
def create_initial_state (goal : String) : OfficeState :=
  { active_tasks := if goal = "" then [] else [goal]
    current_goal := goal }

/-- agent_map literal inside route_from_orchestrator (graph.py): delegated
specialist id to graph node value. -/
def agent_map : List (String × String) :=
  [("crawler", NodeName.crawler.val),
   ("researcher", NodeName.researcher.val),
   ("viral_engineer", NodeName.viralEngineer.val),
   ("comms", NodeName.comms.val),
   ("devops", NodeName.devops.val),
   ("archivist", NodeName.archivist.val),
   ("frontend_designer", NodeName.frontendDesigner.val)]

/-- route_from_orchestrator from graph.py: END on an empty delegated list,
else dict.get of the head id with default END. -/
def route_from_orchestrator (state : OfficeState) : String :=
  match state.delegated_agents with
  | [] => END
  | a :: _ => (agent_map.lookup a).getD END

/-- route_after_research from graph.py: dict truthiness of research_findings. -/
def route_after_research (state : OfficeState) : String :=
  if state.research_findings ≠ [] then NodeName.viralEngineer.val
  else NodeName.archivist.val

/-- route_after_content from graph.py: unconditional. -/
def route_after_content (_state : OfficeState) : String :=
  NodeName.archivist.val

/-- should_run_health_check from graph.py: string truthiness of error. -/
def should_run_health_check (state : OfficeState) : String :=
  if state.error ≠ "" then NodeName.devops.val
  else END

/-- Inverse of NodeName.val, used to interpret the string a routing function
returns as the node the conditional-edge mapping of build_workflow selects. -/
def nodeOfVal (v : String) : Option NodeName :=
  if v = "Orchestrator" then some NodeName.orchestrator
  else if v = "Crawler" then some NodeName.crawler
  else if v = "Researcher" then some NodeName.researcher
  else if v = "ViralEngineer" then some NodeName.viralEngineer
  else if v = "Comms" then some NodeName.comms
  else if v = "DevOps" then some NodeName.devops
  else if v = "Archivist" then some NodeName.archivist
  else if v = "FrontendDesigner" then some NodeName.frontendDesigner
  else none

/-- Successor relation of the graph wired in build_workflow (graph.py):
static edges plus conditional edges evaluated on the state the node returned.
none is the terminal marker END. -/
def nextNode (n : NodeName) (s : OfficeState) : Option NodeName :=
  match n with
  | .orchestrator =>
      let t := route_from_orchestrator s
      if t = END then none else nodeOfVal t
  | .researcher => nodeOfVal (route_after_research s)
  | .viralEngineer => some NodeName.archivist
  | .crawler => some NodeName.archivist
  | .comms =>
      let t := should_run_health_check s
      if t = END then none else nodeOfVal t
  | .devops => none
  | .archivist =>
      let t := should_run_health_check s
      if t = END then none else nodeOfVal t
  | .frontendDesigner => none

/-- Rank function witnessing that the build_workflow edge relation is acyclic:
every edge strictly decreases the rank. -/
def rank : NodeName → Nat
  | .orchestrator => 5
  | .crawler => 4
  | .researcher => 4
  | .viralEngineer => 3
  | .comms => 2
  | .archivist => 2
  | .devops => 1
  | .frontendDesigner => 1

/-- One graph invocation with fuel: each visited node applies its (opaque)
specialist transformation procs, then the conditional or static edge picks the
successor.  Returns the visit trace and the final state, or none if fuel ran
out before the terminal marker. -/
def runGraph (procs : NodeName → OfficeState → OfficeState) :
    Nat → NodeName → OfficeState → Option (List NodeName × OfficeState)
  | 0, _, _ => none
  | fuel + 1, n, s =>
      let t := procs n s
      match nextNode n t with
      | none => some ([n], t)
      | some m => (runGraph procs fuel m t).map (fun r => (n :: r.1, r.2))

/-- Task row as the dispatcher reads it (id, title, description, status). -/
structure Task where
  id : String := ""
  title : String := ""
  description : String := ""
  status : TaskStatus := TaskStatus.backlog
deriving DecidableEq, Repr

/-- Structured payloads of log_activity calls in the sources. -/
inductive Details where
  | taskDone (task_id : String) (title : String)
  | unknownAgent (task_id : String) (agent_id : String)
  | blockedError (task_id : String) (agent_id : String) (err : String)
  | queueError (task_id : String) (goal : String) (err : String)
  | graphComplete (goal : String) (delegated : List String)
  | graphError (goal : String) (err : String)
  | agentComplete (output_type : String)
  | agentError (err : String)
deriving DecidableEq, Repr

/-- One observable side effect on the persistence, queue, specialist or
dispatcher ports. -/
inductive Event where
  | updateTaskStatus (task_id : String) (status : TaskStatus)
  | updateAgent (agent_id : String) (room : Option String) (status : Option AgentStatus)
      (current_task : Option String) (thought_chain : Option String)
  | createMessage (from_agent : String) (to_agent : String) (content : String)
      (message_type : String)
  | logActivity (agent_id : String) (action : String) (details : Details)
  | processCall (agent_id : String) (input : OfficeState)
  | graphInvoke
  | finalizeCall (result : OfficeState)
  | dispatchIdleCall
  | ackTask (msg_id : String)
  | graphRun (goal : String)
  | runAgentQueueCall (agent_id : String)
deriving DecidableEq, Repr

/-- Database port model: the task store plus the trace of side effects. -/
structure DB where
  tasks : List Task := []
  events : List Event := []
deriving DecidableEq, Repr

/-- get_task of the database port. -/
def DB.getTask (db : DB) (task_id : String) : Option Task :=
  db.tasks.find? (fun t => t.id == task_id)

/-- update_task_status of the database port: mutate the store, record the call. -/
def DB.updateTask (db : DB) (task_id : String) (st : TaskStatus) : DB :=
  { tasks := db.tasks.map (fun t => if t.id == task_id then { t with status := st } else t)
    events := db.events ++ [Event.updateTaskStatus task_id st] }

/-- Record one side effect. -/
def DB.emit (db : DB) (e : Event) : DB :=
  { db with events := db.events ++ [e] }

/-- Record several side effects. -/
def DB.emitAll (db : DB) (es : List Event) : DB :=
  { db with events := db.events ++ es }

/-- Python str.title over ASCII: uppercase a letter after a non-letter,
lowercase a letter after a letter. -/
def pyTitleGo : Bool → List Char → List Char
  | _, [] => []
  | prevCased, c :: cs =>
      if c.isAlpha then
        (if prevCased then c.toLower else c.toUpper) :: pyTitleGo true cs
      else
        c :: pyTitleGo false cs

/-- Python str.title. -/
def pyTitle (s : String) : String :=
  String.mk (pyTitleGo false s.data)

/-- AgentTaskDispatcher._display_agent_name: underscores to spaces, then title. -/
def display_agent_name (agent_id : String) : String :=
  pyTitle (agent_id.replace "_" " ")

/-- AgentTaskDispatcher._clean_message_text: collapse whitespace runs. -/
def clean_message_text (text : String) : String :=
  String.intercalate " " ((text.split Char.isWhitespace).filter (fun w => w ≠ ""))

/-- Python x or d for a possibly absent string dict value. -/
def orStr (x : Option String) (d : String) : String :=
  match x with
  | some s => if s = "" then d else s
  | none => d

/-- Python str.strip over ASCII whitespace, written with structural
recursion so concrete instances evaluate. -/
def pyStrip (s : String) : String :=
  String.mk ((((s.data.dropWhile Char.isWhitespace).reverse).dropWhile
    Char.isWhitespace).reverse)

/-- AgentTaskDispatcher._task_goal. -/
def task_goal (task : Task) : String :=
  let title := pyStrip task.title
  let description := pyStrip task.description
  if description = "" then title
  else title ++ "\n\nTask context: " ++ description

/-- AgentTaskDispatcher._build_user_completion_message.  The researcher branch
in the source returns only when the report title is non-empty; with an empty
title every later branch tests a different agent id, so control reaches the
default return, which is inlined here. -/
def build_user_completion_message (agent_id : String) (task_title : String)
    (result : OfficeState) : String :=
  let task_label := if task_title = "" then "delegated task" else task_title
  let agent_name := display_agent_name agent_id
  if agent_id = "devops" then
    let health := result.health_report
    let status := orStr health.system_status "unknown"
    let diagnosis := clean_message_text (orStr health.diagnosis "No diagnosis")
    let recovered := health.agents_recovered.getD 0
    "Status update: DevOps completed \x27" ++ task_label ++ "\x27. " ++
      "System status: " ++ status ++ ". Recovered agents: " ++ toString recovered ++
      ". Diagnosis: " ++ diagnosis
  else if agent_id = "crawler" then
    let crawl_results := result.crawl_results
    let count := crawl_results.length
    let top_topic :=
      match crawl_results with
      | [] => ""
      | d :: _ => clean_message_text ((d.lookup "topic").getD "")
    if top_topic ≠ "" then
      "Status update: Crawler completed \x27" ++ task_label ++ "\x27 with " ++
        toString count ++ " findings. Top finding: " ++ top_topic ++ "."
    else
      "Status update: Crawler completed \x27" ++ task_label ++ "\x27 with " ++
        toString count ++ " findings."
  else if agent_id = "researcher" then
    let findings := result.research_findings
    let title := clean_message_text ((findings.lookup "title").getD "")
    if title ≠ "" then
      "Status update: Researcher completed \x27" ++ task_label ++ "\x27. " ++
        "Report: " ++ title ++ "."
    else
      "Status update: " ++ agent_name ++ " completed \x27" ++ task_label ++ "\x27."
  else if agent_id = "viral_engineer" then
    let drafts := result.content_drafts
    "Status update: Viral Engineer completed \x27" ++ task_label ++ "\x27 and produced " ++
      toString drafts.length ++ " content draft(s)."
  else if agent_id = "archivist" then
    let organized := result.kb_entries_organized
    "Status update: Archivist completed \x27" ++ task_label ++ "\x27 and organized " ++
      toString organized ++ " knowledge-base entries."
  else if agent_id = "comms" then
    let processed := result.comms_processed
    "Status update: Comms completed \x27" ++ task_label ++ "\x27 and processed " ++
      toString processed ++ " communication item(s)."
  else
    "Status update: " ++ agent_name ++ " completed \x27" ++ task_label ++ "\x27."

/-- AgentTaskDispatcher._build_user_failure_message. -/
def build_user_failure_message (agent_id : String) (task_title : String)
    (error : String) : String :=
  let task_label := if task_title = "" then "delegated task" else task_title
  let agent_name := display_agent_name agent_id
  "Status update: " ++ agent_name ++ " could not complete \x27" ++ task_label ++
    "\x27. Error: " ++ clean_message_text error

/-- AgentTaskDispatcher._notify_task_success: the two create_message calls. -/
def notify_task_success_events (agent_id : String) (task_id : String)
    (task_title : String) (result : OfficeState) : List Event :=
  [Event.createMessage agent_id "orchestrator"
      ("Task complete (" ++ task_id ++ "): " ++ task_title) "task_complete",
   Event.createMessage "orchestrator" "user"
      (build_user_completion_message agent_id task_title result) "chat"]

/-- AgentTaskDispatcher._notify_task_failure: the two create_message calls. -/
def notify_task_failure_events (agent_id : String) (task_id : String)
    (task_title : String) (error : String) : List Event :=
  [Event.createMessage "system" "orchestrator"
      ("Task blocked (" ++ task_id ++ ") for " ++ agent_id ++ ": " ++ error) "error",
   Event.createMessage "orchestrator" "user"
      (build_user_failure_message agent_id task_title error) "chat"]

/-- AgentTaskDispatcher.move_task_forward. -/
def move_task_forward (db : DB) (task_id : String) : DB :=
  match db.getTask task_id with
  | none => db
  | some task =>
      if task.status = TaskStatus.done ∨ task.status = TaskStatus.blocked then db
      else
        let db1 := if task.status ≠ TaskStatus.review then
            db.updateTask task_id TaskStatus.review
          else db
        db1.updateTask task_id TaskStatus.done

/-- Title of the primary delegated task as finalize_primary_task computes it:
the stored title stripped, with a fixed fallback when missing or blank. -/
def primary_task_title (db : DB) (task_id : String) : String :=
  let t0 := pyStrip (match db.getTask task_id with
    | some t => t.title
    | none => "")
  if t0 = "" then "Primary delegated task" else t0

/-- AgentTaskDispatcher.finalize_primary_task.  The per-worker lock it takes
is modelled separately as the DispatchState transition system; this function
is the locked body plus the preceding guard. -/
def finalize_primary_task (db : DB) (graph_result : OfficeState) : DB :=
  match graph_result.delegated_agents, graph_result.delegated_task_ids with
  | [], _ => db
  | _ :: _, [] => db
  | primary_agent :: _, primary_task_id :: _ =>
      let task_title := primary_task_title db primary_task_id
      if graph_result.error ≠ "" then
        let db1 := db.updateTask primary_task_id TaskStatus.blocked
        db1.emitAll (notify_task_failure_events primary_agent primary_task_id task_title
          (if graph_result.error = "" then "Unknown error" else graph_result.error))
      else
        let db1 := move_task_forward db primary_task_id
        let db2 := db1.emitAll
          (notify_task_success_events primary_agent primary_task_id task_title graph_result)
        db2.emit (Event.logActivity primary_agent "task_completed"
          (Details.taskDone primary_task_id task_title))

/-- RunState handed to the specialist by execute_assigned_task: the fresh
initial state for the task goal, with active_tasks overwritten by the title. -/
def exec_input (task : Task) : OfficeState :=
  { create_initial_state (task_goal task) with active_tasks := [task.title] }

/-- Except-branch of AgentTaskDispatcher.execute_assigned_task. -/
def execute_task_failure (db : DB) (agent_id : String) (task_id : String)
    (task_title : String) (error : String) : DB :=
  let db1 := db.updateTask task_id TaskStatus.blocked
  let db2 := db1.emitAll (notify_task_failure_events agent_id task_id task_title error)
  db2.emit (Event.logActivity "system" "task_blocked_error"
    (Details.blockedError task_id agent_id error))

/-- AgentTaskDispatcher.execute_assigned_task.  The specialist Process call is
opaque: procOutcome is either the exception it raised or the state it
returned; a returned state with non-empty error is re-raised by the source as
a RuntimeError carrying exactly that error text. -/
def execute_assigned_task (db : DB) (registry : List String)
    (procOutcome : Except String OfficeState) (agent_id : String) (task : Task) : DB :=
  let task_id := task.id
  if task_id = "" then db
  else if agent_id ∉ registry then
    let db1 := db.updateTask task_id TaskStatus.blocked
    db1.emit (Event.logActivity "system" "task_blocked_unknown_agent"
      (Details.unknownAgent task_id agent_id))
  else
    let db1 := if task.status ≠ TaskStatus.inProgress then
        db.updateTask task_id TaskStatus.inProgress
      else db
    let db2 := db1.emit (Event.updateAgent agent_id none (some AgentStatus.working)
      (some task.title) (some ("Executing assigned task: " ++ task.title)))
    let db3 := db2.emit (Event.processCall agent_id (exec_input task))
    match procOutcome with
    | Except.error e => execute_task_failure db3 agent_id task_id task.title e
    | Except.ok result =>
        if result.error ≠ "" then
          execute_task_failure db3 agent_id task_id task.title result.error
        else
          let db4 := move_task_forward db3 task_id
          let db5 := db4.emitAll
            (notify_task_success_events agent_id task_id task.title result)
          db5.emit (Event.logActivity agent_id "task_completed"
            (Details.taskDone task_id task.title))

/-- Agent row as dispatch_idle_agents reads it. -/
structure AgentRow where
  id : String := ""
  status : AgentStatus := AgentStatus.idle
deriving DecidableEq, Repr

/-- The idle_ids list dispatch_idle_agents builds: workers whose status is
Idle and whose (string) id is in the registry. -/
def idle_registered_ids (agents : List AgentRow) (registry : List String) :
    List String :=
  (agents.filter
    (fun a => a.status == AgentStatus.idle && registry.contains a.id)).map
      (fun a => a.id)

/-- AgentTaskDispatcher.dispatch_idle_agents.  lockHeld is the observed state
of the global try-lock; sweepOutcome is the opaque result of each fanned-out
run_agent_queue coroutine, gathered with return_exceptions so failures are
collected as values.  Returns the invocation events and the gathered results. -/
def dispatch_idle_agents (lockHeld : Bool) (agents : List AgentRow)
    (registry : List String) (sweepOutcome : String → Except String Unit) :
    List Event × List (Except String Unit) :=
  if lockHeld then ([], [])
  else
    let idle_ids := idle_registered_ids agents registry
    if idle_ids.isEmpty then ([], [])
    else (idle_ids.map Event.runAgentQueueCall, idle_ids.map sweepOutcome)

/-- Queue item as TaskQueueWorker reads it. -/
structure QueueItem where
  id : String := ""
  goal : String := ""
deriving DecidableEq, Repr

/-- Per-item body of TaskQueueWorker.run: build a fresh state, run the graph,
acknowledge, and on a caught failure acknowledge anyway and record a
task_queue_error activity.  runOutcome is the opaque outcome of
GraphRunner.run on the item goal. -/
def process_queue_item (runOutcome : String → Except String Unit)
    (item : QueueItem) : List Event :=
  match runOutcome item.goal with
  | Except.ok _ =>
      [Event.graphRun item.goal, Event.ackTask item.id]
  | Except.error e =>
      [Event.graphRun item.goal, Event.ackTask item.id,
       Event.logActivity "system" "task_queue_error"
         (Details.queueError item.id item.goal e)]

/-- One dequeued batch of TaskQueueWorker.run: items handled in order. -/
def process_batch (runOutcome : String → Except String Unit)
    (items : List QueueItem) : List Event :=
  items.flatMap (process_queue_item runOutcome)

/-- GraphExecutionService.run from services/graph_execution.py.  invoke is the
outcome of graph.ainvoke; the function is total, which is exactly the source
property that the surrounding try/except swallows every exception. -/
def graph_execution_run (invoke : Except String OfficeState) (goal : String) :
    List Event :=
  match invoke with
  | Except.ok result =>
      [Event.graphInvoke, Event.finalizeCall result, Event.dispatchIdleCall,
       Event.logActivity "system" "graph_complete"
         (Details.graphComplete goal result.delegated_agents)]
  | Except.error e =>
      [Event.graphInvoke,
       Event.logActivity "system" "graph_error" (Details.graphError goal e)]

/-- Python string slice s[:n], written with structural recursion so concrete
instances evaluate. -/
def pyTake (s : String) (n : Nat) : String :=
  String.mk (s.data.take n)

/-- Class metadata of a BaseAgent subclass (core/base_agent.py). -/
structure AgentMeta where
  agent_id : String := ""
  name : String := ""
  role : String := ""
  default_room : String := ""
deriving DecidableEq, Repr

/-- BaseAgent.process from core/base_agent.py.  chainOutcome is the opaque
outcome of the LLM chain (carrying the parsed output type name on success);
executeOutcome is the opaque outcome of the subclass execute step; context
port calls are modelled as non-failing events.  The room fallback mirrors the
source expression choosing Desks when default_room is empty; room names of
the fixed roster are assumed valid RoomEnum values, as every subclass sets
one of the five literals. -/
def base_agent_process (meta : AgentMeta) (chainOutcome : Except String String)
    (executeOutcome : OfficeState → Except String OfficeState)
    (state : OfficeState) : OfficeState × List Event :=
  let startEv := Event.updateAgent meta.agent_id none (some AgentStatus.working) none
      (some ("Analyzing request and preparing " ++ meta.role.toLower ++ " response..."))
  let room := if meta.default_room ≠ "" then meta.default_room else "Desks"
  let failure := fun (e : String) =>
    ({ state with error := e },
     [startEv,
      Event.updateAgent meta.agent_id (some room) (some AgentStatus.error) none
        (some ("Error encountered: " ++ pyTake e 200)),
      Event.logActivity meta.agent_id (meta.agent_id ++ "_error")
        (Details.agentError (pyTake e 500))])
  match chainOutcome with
  | Except.error e => failure e
  | Except.ok parsedName =>
      match executeOutcome state with
      | Except.error e => failure e
      | Except.ok state2 =>
          (state2,
           [startEv,
            Event.updateAgent meta.agent_id (some room) (some AgentStatus.idle) (some "")
              (some ("Task complete. " ++ meta.role ++ " work finished successfully.")),
            Event.logActivity meta.agent_id (meta.agent_id ++ "_complete")
              (Details.agentComplete parsedName)])

/-- Progress of one coroutine competing for a per-worker lock. -/
inductive Proc3 where
  | start
  | cs
  | finished
deriving DecidableEq, Repr

/-- Which coroutine currently holds one worker lock. -/
inductive LockOwner where
  | byQueue
  | byFinalize
deriving DecidableEq, Repr

/-- Cooperative interleaving state of run_agent_queue and
finalize_primary_task contending for the same per-worker asyncio.Lock:
queueProc is the run_agent_queue coroutine (try-lock: skip when held),
finalizeProc is the finalize_primary_task coroutine (blocking acquire),
lock is the asyncio.Lock with its single owner, and queueRan records whether
run_agent_queue ever entered its drain loop (the execute_assigned_task work). -/
structure DispatchState where
  queueProc : Proc3 := Proc3.start
  finalizeProc : Proc3 := Proc3.start
  lock : Option LockOwner := none
  queueRan : Bool := false
deriving DecidableEq, Repr

/-- One atomic scheduler step of either coroutine, exactly per the source:
run_agent_queue checks lock.locked() and either returns at once or acquires
and enters its drain loop; finalize_primary_task acquires only when the lock
is free (otherwise it stays waiting); each holder eventually releases. -/
inductive DStep : DispatchState → DispatchState → Prop where
  | queueAcquire (s : DispatchState) (h1 : s.queueProc = Proc3.start) (h2 : s.lock = none) :
      DStep s { s with queueProc := Proc3.cs, lock := some LockOwner.byQueue, queueRan := true }
  | queueSkip (s : DispatchState) (h1 : s.queueProc = Proc3.start) (h2 : s.lock ≠ none) :
      DStep s { s with queueProc := Proc3.finished }
  | queueRelease (s : DispatchState) (h : s.queueProc = Proc3.cs) :
      DStep s { s with queueProc := Proc3.finished, lock := none }
  | finalizeAcquire (s : DispatchState) (h1 : s.finalizeProc = Proc3.start) (h2 : s.lock = none) :
      DStep s { s with finalizeProc := Proc3.cs, lock := some LockOwner.byFinalize }
  | finalizeRelease (s : DispatchState) (h : s.finalizeProc = Proc3.cs) :
      DStep s { s with finalizeProc := Proc3.finished, lock := none }

/-- Initial state: both coroutines about to run, lock free. -/
def initDispatch : DispatchState := {}

/-- Lock-ownership invariant of the per-worker lock protocol. -/
def DInv (s : DispatchState) : Prop :=
  (s.queueProc = Proc3.cs → s.lock = some LockOwner.byQueue) ∧
  (s.finalizeProc = Proc3.cs → s.lock = some LockOwner.byFinalize)

/-! Helper lemmas about the routing table and the graph edge relation. -/

theorem lookup_none_of_not_mem_keys (l : List (String × String)) (a : String)
    (h : a ∉ l.map Prod.fst) : l.lookup a = none := by
  induction l with
  | nil => rfl
  | cons p rest ih =>
      obtain ⟨k, v⟩ := p
      have h1 : a ≠ k := by
        intro e
        exact h (by simp [e])
      have h2 : a ∉ rest.map Prod.fst := by
        intro e
        exact h (by simp [e])
      have hb : (a == k) = false := beq_eq_false_iff_ne.mpr h1
      simp [List.lookup, hb, ih h2]

theorem val_ne_END (k : NodeName) : NodeName.val k ≠ END := by
  cases k <;> decide

theorem nodeOfVal_val (k : NodeName) : nodeOfVal (NodeName.val k) = some k := by
  cases k <;> decide

theorem route_head_cases (a : String) :
    (agent_map.lookup a).getD END = END ∨
    ∃ k : NodeName, (agent_map.lookup a).getD END = NodeName.val k ∧ rank k < 5 := by
  by_cases h1 : a = "crawler"
  · exact Or.inr ⟨NodeName.crawler, by subst h1; decide, by decide⟩
  by_cases h2 : a = "researcher"
  · exact Or.inr ⟨NodeName.researcher, by subst h2; decide, by decide⟩
  by_cases h3 : a = "viral_engineer"
  · exact Or.inr ⟨NodeName.viralEngineer, by subst h3; decide, by decide⟩
  by_cases h4 : a = "comms"
  · exact Or.inr ⟨NodeName.comms, by subst h4; decide, by decide⟩
  by_cases h5 : a = "devops"
  · exact Or.inr ⟨NodeName.devops, by subst h5; decide, by decide⟩
  by_cases h6 : a = "archivist"
  · exact Or.inr ⟨NodeName.archivist, by subst h6; decide, by decide⟩
  by_cases h7 : a = "frontend_designer"
  · exact Or.inr ⟨NodeName.frontendDesigner, by subst h7; decide, by decide⟩
  left
  have hmem : a ∉ agent_map.map Prod.fst := by
    simp [agent_map]
    exact ⟨h1, h2, h3, h4, h5, h6, h7⟩
  simp [lookup_none_of_not_mem_keys agent_map a hmem]

theorem route_head_rank (s : OfficeState) :
    route_from_orchestrator s = END ∨
    ∃ k : NodeName, route_from_orchestrator s = NodeName.val k ∧ rank k < 5 := by
  unfold route_from_orchestrator
  cases s.delegated_agents with
  | nil => exact Or.inl rfl
  | cons a rest => exact route_head_cases a

theorem nextNode_rank_lt (n : NodeName) (s : OfficeState) (m : NodeName)
    (h : nextNode n s = some m) : rank m < rank n := by
  cases n with
  | orchestrator =>
      simp only [nextNode] at h
      rcases route_head_rank s with hE | ⟨k, hk, hrk⟩
      · rw [hE] at h
        simp at h
      · rw [hk, if_neg (val_ne_END k), nodeOfVal_val] at h
        cases h
        exact hrk
  | researcher =>
      simp only [nextNode, route_after_research] at h
      by_cases hf : s.research_findings ≠ []
      · rw [if_pos hf] at h
        rw [nodeOfVal_val NodeName.viralEngineer] at h
        cases h
        decide
      · rw [if_neg hf] at h
        rw [nodeOfVal_val NodeName.archivist] at h
        cases h
        decide
  | viralEngineer =>
      simp only [nextNode] at h
      cases h
      decide
  | crawler =>
      simp only [nextNode] at h
      cases h
      decide
  | comms =>
      simp only [nextNode, should_run_health_check] at h
      by_cases he : s.error ≠ ""
      · rw [if_pos he] at h
        rw [if_neg (val_ne_END NodeName.devops), nodeOfVal_val] at h
        cases h
        decide
      · rw [if_neg he] at h
        simp [END] at h
  | devops => simp [nextNode] at h
  | archivist =>
      simp only [nextNode, should_run_health_check] at h
      by_cases he : s.error ≠ ""
      · rw [if_pos he] at h
        rw [if_neg (val_ne_END NodeName.devops), nodeOfVal_val] at h
        cases h
        decide
      · rw [if_neg he] at h
        simp [END] at h
  | frontendDesigner => simp [nextNode] at h

theorem runGraph_total (procs : NodeName → OfficeState → OfficeState) :
    ∀ (fuel : Nat) (n : NodeName) (s : OfficeState), rank n < fuel →
      ∃ r, runGraph procs fuel n s = some r := by
  intro fuel
  induction fuel with
  | zero => exact fun n s h => absurd h (Nat.not_lt_zero _)
  | succ f ih =>
      intro n s h
      cases hn : nextNode n (procs n s) with
      | none => exact ⟨([n], procs n s), by simp [runGraph, hn]⟩
      | some m =>
          have hm : rank m < f :=
            lt_of_lt_of_le (nextNode_rank_lt n (procs n s) m hn) (Nat.lt_succ_iff.mp h)
          obtain ⟨r, hr⟩ := ih m (procs n s) hm
          exact ⟨(n :: r.1, r.2), by simp [runGraph, hn, hr]⟩

theorem runGraph_trace (procs : NodeName → OfficeState → OfficeState) :
    ∀ (fuel : Nat) (n : NodeName) (s : OfficeState) (tr : List NodeName) (sf : OfficeState),
      runGraph procs fuel n s = some (tr, sf) →
      tr.head? = some n ∧ List.Chain' (fun a b => rank b < rank a) tr := by
  intro fuel
  induction fuel with
  | zero => intro n s tr sf h; simp [runGraph] at h
  | succ f ih =>
      intro n s tr sf h
      simp only [runGraph] at h
      cases hn : nextNode n (procs n s) with
      | none =>
          rw [hn] at h
          simp at h
          obtain ⟨htr, _⟩ := h
          subst htr
          exact ⟨rfl, List.chain'_singleton n⟩
      | some m =>
          rw [hn] at h
          dsimp only at h
          cases hrec : runGraph procs f m (procs n s) with
          | none => rw [hrec] at h; simp at h
          | some r =>
              rw [hrec] at h
              simp at h
              obtain ⟨htr, _⟩ := h
              obtain ⟨hh, hc⟩ := ih m (procs n s) r.1 r.2 (by rw [hrec])
              subst htr
              refine ⟨rfl, List.chain'_cons'.mpr ⟨?_, hc⟩⟩
              intro y hy
              rw [hh] at hy
              cases hy
              exact nextNode_rank_lt n (procs n s) m hn

/-- C1: for every initial RunState and every specialist behaviour at the
nodes, one WorkflowGraph invocation started at the orchestrator entry node
reaches the terminal marker (the run returns within the graph depth), visits
no node twice (the edge relation of build_workflow admits no cycles and no
re-entry), and visits the entry node exactly once. -/
theorem workflow_single_pass (procs : NodeName → OfficeState → OfficeState)
    (s : OfficeState) :
    ∃ (tr : List NodeName) (sf : OfficeState),
      runGraph procs 6 NodeName.orchestrator s = some (tr, sf) ∧
      tr.head? = some NodeName.orchestrator ∧
      tr.Nodup ∧
      tr.count NodeName.orchestrator = 1 := by
  obtain ⟨⟨tr, sf⟩, h⟩ := runGraph_total procs 6 NodeName.orchestrator s (by decide)
  obtain ⟨h1, h2⟩ := runGraph_trace procs 6 NodeName.orchestrator s tr sf h
  haveI : IsTrans NodeName (fun a b => rank b < rank a) :=
    ⟨fun _ _ _ hab hbc => lt_trans hbc hab⟩
  have hpw : tr.Pairwise (fun a b => rank b < rank a) := List.chain'_iff_pairwise.mp h2
  have hnodup : tr.Nodup := by
    refine hpw.imp ?_
    intro a b hab e
    subst e
    exact lt_irrefl _ hab
  have hcount : tr.count NodeName.orchestrator = 1 := by
    cases tr with
    | nil => simp at h1
    | cons hd t =>
        have hhd : hd = NodeName.orchestrator := by simpa using h1
        subst hhd
        have hc := (List.pairwise_cons.mp hpw).1
        have hnot : NodeName.orchestrator ∉ t := by
          intro hm
          have h5 := hc _ hm
          simp [rank] at h5
        simp [List.count_cons, List.count_eq_zero.mpr hnot]
  exact ⟨tr, sf, h, h1, hnodup, hcount⟩

/-- C2: route_from_orchestrator returns the terminal marker on an empty
delegated list; otherwise it maps the head of the delegated list through the
fixed id-to-node table (crawler, researcher, viral_engineer, comms, devops,
archivist, frontend_designer) and returns the terminal marker for any id
outside the table; in particular a head of devops (the health monitor)
routes to the DevOps node and the unknown id unknown_x routes to the
terminal marker. -/
theorem route_from_orchestrator_spec :
    (∀ s : OfficeState, s.delegated_agents = [] → route_from_orchestrator s = END) ∧
    (∀ (s : OfficeState) (a : String) (rest : List String),
      s.delegated_agents = a :: rest → a ∉ agent_map.map Prod.fst →
      route_from_orchestrator s = END) ∧
    (∀ (s : OfficeState) (rest : List String),
      s.delegated_agents = "crawler" :: rest →
      route_from_orchestrator s = NodeName.crawler.val) ∧
    (∀ (s : OfficeState) (rest : List String),
      s.delegated_agents = "researcher" :: rest →
      route_from_orchestrator s = NodeName.researcher.val) ∧
    (∀ (s : OfficeState) (rest : List String),
      s.delegated_agents = "viral_engineer" :: rest →
      route_from_orchestrator s = NodeName.viralEngineer.val) ∧
    (∀ (s : OfficeState) (rest : List String),
      s.delegated_agents = "comms" :: rest →
      route_from_orchestrator s = NodeName.comms.val) ∧
    (∀ (s : OfficeState) (rest : List String),
      s.delegated_agents = "devops" :: rest →
      route_from_orchestrator s = NodeName.devops.val) ∧
    (∀ (s : OfficeState) (rest : List String),
      s.delegated_agents = "archivist" :: rest →
      route_from_orchestrator s = NodeName.archivist.val) ∧
    (∀ (s : OfficeState) (rest : List String),
      s.delegated_agents = "frontend_designer" :: rest →
      route_from_orchestrator s = NodeName.frontendDesigner.val) ∧
    (∀ (s : OfficeState) (rest : List String),
      s.delegated_agents = "unknown_x" :: rest →
      route_from_orchestrator s = END) := by
  refine ⟨?_, ?_, ?_, ?_, ?_, ?_, ?_, ?_, ?_, ?_⟩
  · intro s h
    simp only [route_from_orchestrator, h]
  · intro s a rest h hmem
    simp only [route_from_orchestrator, h]
    simp [lookup_none_of_not_mem_keys agent_map a hmem]
  all_goals intro s rest h
  all_goals simp only [route_from_orchestrator, h]
  all_goals decide

/-- Witness for C2: concrete states exercising the empty, known-id and
unknown-id branches. -/
theorem route_from_orchestrator_spec_witness :
    route_from_orchestrator {} = END ∧
    route_from_orchestrator { delegated_agents := ["crawler"] } = NodeName.crawler.val ∧
    route_from_orchestrator { delegated_agents := ["devops"] } = NodeName.devops.val ∧
    route_from_orchestrator { delegated_agents := ["unknown_x"] } = END ∧
    route_from_orchestrator { delegated_agents := ["nobody", "crawler"] } = END :=
  ⟨route_from_orchestrator_spec.1 {} rfl,
   route_from_orchestrator_spec.2.2.1 { delegated_agents := ["crawler"] } [] rfl,
   route_from_orchestrator_spec.2.2.2.2.2.2.1 { delegated_agents := ["devops"] } [] rfl,
   route_from_orchestrator_spec.2.2.2.2.2.2.2.2.2 { delegated_agents := ["unknown_x"] } [] rfl,
   route_from_orchestrator_spec.2.1 { delegated_agents := ["nobody", "crawler"] }
     "nobody" ["crawler"] rfl (by decide)⟩

theorem mtf_events_active (db : DB) (task_id : String) (task : Task)
    (hget : db.getTask task_id = some task)
    (hst : task.status = TaskStatus.backlog ∨ task.status = TaskStatus.inProgress) :
    (move_task_forward db task_id).events =
      db.events ++ [Event.updateTaskStatus task_id TaskStatus.review,
                    Event.updateTaskStatus task_id TaskStatus.done] := by
  rcases hst with hst | hst <;>
    simp [move_task_forward, hget, hst, DB.updateTask]

/-- C6: move_task_forward issues an update to Review whenever the task is not
already in Review, then an update to Done, so a successful run passes through
Review before Done and never moves Backlog or InProgress directly to Done;
a task already Done or Blocked (terminal states) is left unchanged, as is a
missing task. -/
theorem move_task_forward_spec :
    (∀ (db : DB) (task_id : String) (task : Task),
      db.getTask task_id = some task →
      (task.status = TaskStatus.backlog ∨ task.status = TaskStatus.inProgress) →
      (move_task_forward db task_id).events =
        db.events ++ [Event.updateTaskStatus task_id TaskStatus.review,
                      Event.updateTaskStatus task_id TaskStatus.done]) ∧
    (∀ (db : DB) (task_id : String) (task : Task),
      db.getTask task_id = some task → task.status = TaskStatus.review →
      (move_task_forward db task_id).events =
        db.events ++ [Event.updateTaskStatus task_id TaskStatus.done]) ∧
    (∀ (db : DB) (task_id : String) (task : Task),
      db.getTask task_id = some task →
      (task.status = TaskStatus.done ∨ task.status = TaskStatus.blocked) →
      move_task_forward db task_id = db) ∧
    (∀ (db : DB) (task_id : String),
      db.getTask task_id = none → move_task_forward db task_id = db) := by
  refine ⟨?_, ?_, ?_, ?_⟩
  · exact mtf_events_active
  · intro db task_id task hget hst
    simp [move_task_forward, hget, hst, DB.updateTask]
  · intro db task_id task hget hst
    rcases hst with hst | hst <;>
      simp [move_task_forward, hget, hst]
  · intro db task_id hget
    simp [move_task_forward, hget]

/-- Witness for C6: a Backlog task passes through Review to Done and a Done
task is untouched. -/
theorem move_task_forward_spec_witness :
    (move_task_forward { tasks := [{ id := "t1", status := TaskStatus.backlog }] } "t1").events =
      [Event.updateTaskStatus "t1" TaskStatus.review,
       Event.updateTaskStatus "t1" TaskStatus.done] ∧
    move_task_forward { tasks := [{ id := "t2", status := TaskStatus.done }] } "t2" =
      { tasks := [{ id := "t2", status := TaskStatus.done }] } :=
  ⟨by
    have h := move_task_forward_spec.1
      { tasks := [{ id := "t1", status := TaskStatus.backlog }] } "t1"
      { id := "t1", status := TaskStatus.backlog } (by decide) (Or.inl rfl)
    simpa using h,
   move_task_forward_spec.2.2.1
     { tasks := [{ id := "t2", status := TaskStatus.done }] } "t2"
     { id := "t2", status := TaskStatus.done } (by decide) (Or.inl rfl)⟩

/-- C4: finalize_primary_task is a no-op when the delegated-agents or
delegated-task-ids list is empty; otherwise, for the task at index 0: a
non-empty graph error sets the task Blocked and emits the failure
notifications, while an empty error advances the task through Review to Done
(via move_task_forward, which skips terminal tasks), emits the success
notifications, and logs a task_completed activity; in the standard case of a
Backlog or InProgress stored task the update sequence is exactly Review then
Done. -/
theorem finalize_primary_task_spec :
    (∀ (db : DB) (gr : OfficeState),
      gr.delegated_agents = [] ∨ gr.delegated_task_ids = [] →
      finalize_primary_task db gr = db) ∧
    (∀ (db : DB) (gr : OfficeState) (a tid : String) (as ts : List String),
      gr.delegated_agents = a :: as → gr.delegated_task_ids = tid :: ts →
      gr.error ≠ "" →
      (finalize_primary_task db gr).events =
        db.events ++ [Event.updateTaskStatus tid TaskStatus.blocked] ++
          notify_task_failure_events a tid (primary_task_title db tid) gr.error) ∧
    (∀ (db : DB) (gr : OfficeState) (a tid : String) (as ts : List String),
      gr.delegated_agents = a :: as → gr.delegated_task_ids = tid :: ts →
      gr.error = "" →
      (finalize_primary_task db gr).events =
        (move_task_forward db tid).events ++
          notify_task_success_events a tid (primary_task_title db tid) gr ++
          [Event.logActivity a "task_completed"
            (Details.taskDone tid (primary_task_title db tid))]) ∧
    (∀ (db : DB) (gr : OfficeState) (a tid : String) (as ts : List String) (task : Task),
      gr.delegated_agents = a :: as → gr.delegated_task_ids = tid :: ts →
      gr.error = "" → db.getTask tid = some task →
      (task.status = TaskStatus.backlog ∨ task.status = TaskStatus.inProgress) →
      (finalize_primary_task db gr).events =
        db.events ++
          [Event.updateTaskStatus tid TaskStatus.review,
           Event.updateTaskStatus tid TaskStatus.done] ++
          notify_task_success_events a tid (primary_task_title db tid) gr ++
          [Event.logActivity a "task_completed"
            (Details.taskDone tid (primary_task_title db tid))]) := by
  refine ⟨?_, ?_, ?_, ?_⟩
  · intro db gr h
    rcases h with h | h
    · simp [finalize_primary_task, h]
    · cases hd : gr.delegated_agents with
      | nil => simp [finalize_primary_task, hd]
      | cons x xs => simp [finalize_primary_task, hd, h]
  · intro db gr a tid as ts ha ht herr
    simp [finalize_primary_task, ha, ht, herr, DB.updateTask, DB.emitAll,
      List.append_assoc]
  · intro db gr a tid as ts ha ht herr
    simp [finalize_primary_task, ha, ht, herr, DB.emitAll, DB.emit,
      List.append_assoc]
  · intro db gr a tid as ts task ha ht herr hget hst
    have hmtf := mtf_events_active db tid task hget hst
    simp [finalize_primary_task, ha, ht, herr, DB.emitAll, DB.emit, hmtf,
      List.append_assoc]

/-- Concrete in-progress primary task used by the C4 witness. -/
def taskT1 : Task :=
  { id := "t1", title := "Do it", status := TaskStatus.inProgress }

/-- Concrete store holding the primary task, used by the C4 witness. -/
def dbT1 : DB :=
  { tasks := [taskT1] }

/-- Concrete failed graph result used by the C4 witness. -/
def grFail : OfficeState :=
  { delegated_agents := ["crawler"], delegated_task_ids := ["t1"], error := "boom" }

/-- Concrete successful graph result used by the C4 witness. -/
def grOk : OfficeState :=
  { delegated_agents := ["crawler"], delegated_task_ids := ["t1"] }

/-- Witness for C4: an empty delegation is a no-op; a delegated run with an
error blocks the primary task; a clean run advances it Review then Done. -/
theorem finalize_primary_task_spec_witness :
    finalize_primary_task dbT1 {} = dbT1 ∧
    (finalize_primary_task dbT1 grFail).events =
      [Event.updateTaskStatus "t1" TaskStatus.blocked] ++
        notify_task_failure_events "crawler" "t1" "Do it" "boom" ∧
    (finalize_primary_task dbT1 grOk).events =
      [Event.updateTaskStatus "t1" TaskStatus.review,
       Event.updateTaskStatus "t1" TaskStatus.done] ++
        notify_task_success_events "crawler" "t1" "Do it" grOk ++
        [Event.logActivity "crawler" "task_completed" (Details.taskDone "t1" "Do it")] := by
  refine ⟨?_, ?_, ?_⟩
  · exact finalize_primary_task_spec.1 dbT1 {} (Or.inl rfl)
  · have h := finalize_primary_task_spec.2.1 dbT1 grFail
      "crawler" "t1" [] [] rfl rfl (by decide)
    have htrim : pyStrip "Do it" = "Do it" := by decide
    simpa [primary_task_title, DB.getTask, dbT1, taskT1, grFail, htrim] using h
  · have h := finalize_primary_task_spec.2.2.2 dbT1 grOk
      "crawler" "t1" [] [] taskT1 rfl rfl rfl (by decide) (Or.inr rfl)
    have htrim : pyStrip "Do it" = "Do it" := by decide
    simpa [primary_task_title, DB.getTask, dbT1, taskT1, grOk, htrim] using h

/-- Recognizer for specialist Process invocations in an event trace. -/
def is_process_call : Event → Bool
  | Event.processCall _ _ => true
  | _ => false

theorem move_task_forward_events_shape (db : DB) (tid : String) :
    (move_task_forward db tid).events = db.events ∨
    (move_task_forward db tid).events =
      db.events ++ [Event.updateTaskStatus tid TaskStatus.done] ∨
    (move_task_forward db tid).events =
      db.events ++ [Event.updateTaskStatus tid TaskStatus.review,
                    Event.updateTaskStatus tid TaskStatus.done] := by
  cases h : db.getTask tid with
  | none => left; simp [move_task_forward, h]
  | some task =>
      by_cases h1 : task.status = TaskStatus.done ∨ task.status = TaskStatus.blocked
      · left; simp [move_task_forward, h, h1]
      · by_cases h2 : task.status = TaskStatus.review
        · right; left; simp [move_task_forward, h, h1, h2, DB.updateTask]
        · right; right; simp [move_task_forward, h, h1, h2, DB.updateTask]

/-- C5: execute_assigned_task error handling.  An unregistered worker id
blocks the task immediately (no InProgress update, no worker update, no
message, no Process call) and writes only a system-level activity record; a
failing Process call (raised, or returned state with non-empty error) blocks
the task, emits the internal error message plus the chat failure paraphrase,
and logs a system activity record; and no call path invokes the specialist
more than once (no retry). -/
theorem execute_assigned_task_spec :
    (∀ (db : DB) (reg : List String) (po : Except String OfficeState)
       (agent_id : String) (task : Task),
      db.events = [] → task.id ≠ "" → agent_id ∉ reg →
      (execute_assigned_task db reg po agent_id task).events =
        [Event.updateTaskStatus task.id TaskStatus.blocked,
         Event.logActivity "system" "task_blocked_unknown_agent"
           (Details.unknownAgent task.id agent_id)]) ∧
    (∀ (db : DB) (reg : List String) (e : String) (agent_id : String) (task : Task),
      db.events = [] → task.id ≠ "" → agent_id ∈ reg →
      (execute_assigned_task db reg (Except.error e) agent_id task).events =
        (if task.status ≠ TaskStatus.inProgress then
          [Event.updateTaskStatus task.id TaskStatus.inProgress] else []) ++
        [Event.updateAgent agent_id none (some AgentStatus.working) (some task.title)
           (some ("Executing assigned task: " ++ task.title)),
         Event.processCall agent_id (exec_input task),
         Event.updateTaskStatus task.id TaskStatus.blocked] ++
        notify_task_failure_events agent_id task.id task.title e ++
        [Event.logActivity "system" "task_blocked_error"
           (Details.blockedError task.id agent_id e)]) ∧
    (∀ (db : DB) (reg : List String) (result : OfficeState)
       (agent_id : String) (task : Task),
      db.events = [] → task.id ≠ "" → agent_id ∈ reg → result.error ≠ "" →
      (execute_assigned_task db reg (Except.ok result) agent_id task).events =
        (if task.status ≠ TaskStatus.inProgress then
          [Event.updateTaskStatus task.id TaskStatus.inProgress] else []) ++
        [Event.updateAgent agent_id none (some AgentStatus.working) (some task.title)
           (some ("Executing assigned task: " ++ task.title)),
         Event.processCall agent_id (exec_input task),
         Event.updateTaskStatus task.id TaskStatus.blocked] ++
        notify_task_failure_events agent_id task.id task.title result.error ++
        [Event.logActivity "system" "task_blocked_error"
           (Details.blockedError task.id agent_id result.error)]) ∧
    (∀ (db : DB) (reg : List String) (po : Except String OfficeState)
       (agent_id : String) (task : Task),
      db.events = [] →
      ((execute_assigned_task db reg po agent_id task).events.countP
        is_process_call) ≤ 1) := by
  refine ⟨?_, ?_, ?_, ?_⟩
  · intro db reg po agent_id task hdb hid hreg
    simp [execute_assigned_task, hdb, hid, hreg, DB.updateTask, DB.emit]
  · intro db reg e agent_id task hdb hid hreg
    by_cases hst : task.status = TaskStatus.inProgress <;>
      simp [execute_assigned_task, execute_task_failure, hdb, hid, hreg, hst,
        DB.updateTask, DB.emit, DB.emitAll]
  · intro db reg result agent_id task hdb hid hreg hres
    by_cases hst : task.status = TaskStatus.inProgress <;>
      simp [execute_assigned_task, execute_task_failure, hdb, hid, hreg, hst, hres,
        DB.updateTask, DB.emit, DB.emitAll]
  · intro db reg po agent_id task hdb
    by_cases hid : task.id = ""
    · simp [execute_assigned_task, hid, hdb]
    by_cases hreg : agent_id ∈ reg
    · cases po with
      | error e =>
          by_cases hst : task.status = TaskStatus.inProgress <;>
            simp [execute_assigned_task, execute_task_failure, hdb, hid, hreg, hst,
              DB.updateTask, DB.emit, DB.emitAll, notify_task_failure_events,
              List.countP_append, List.countP_cons, is_process_call]
      | ok result =>
          by_cases hres : result.error ≠ ""
          · by_cases hst : task.status = TaskStatus.inProgress <;>
              simp [execute_assigned_task, execute_task_failure, hdb, hid, hreg, hst, hres,
                DB.updateTask, DB.emit, DB.emitAll, notify_task_failure_events,
                List.countP_append, List.countP_cons, is_process_call]
          · have hp : ∀ (t : String) (s : TaskStatus),
                is_process_call (Event.updateTaskStatus t s) = false := fun _ _ => rfl
            have hmtf : ∀ (d : DB) (tid : String),
                (move_task_forward d tid).events.countP is_process_call =
                  d.events.countP is_process_call := by
              intro d tid
              rcases move_task_forward_events_shape d tid with h | h | h <;>
                simp [h, List.countP_append, List.countP_cons, hp]
            by_cases hst : task.status = TaskStatus.inProgress <;>
              simp [execute_assigned_task, hdb, hid, hreg, hst, hres,
                DB.updateTask, DB.emit, DB.emitAll, notify_task_success_events,
                List.countP_append, List.countP_cons, is_process_call, hmtf]
    · simp [execute_assigned_task, hid, hreg, hdb, DB.updateTask, DB.emit,
        List.countP_cons, is_process_call]

/-- Witness for C5: an unregistered worker id blocks the task with only a
system activity record; a raising Process call blocks the task, notifies, and
logs; and the specialist is invoked at most once. -/
theorem execute_assigned_task_spec_witness :
    (execute_assigned_task { tasks := [taskT1] } [] (Except.ok {}) "ghost" taskT1).events =
      [Event.updateTaskStatus "t1" TaskStatus.blocked,
       Event.logActivity "system" "task_blocked_unknown_agent"
         (Details.unknownAgent "t1" "ghost")] ∧
    (execute_assigned_task { tasks := [taskT1] } ["crawler"] (Except.error "boom")
        "crawler" taskT1).events =
      [Event.updateAgent "crawler" none (some AgentStatus.working) (some "Do it")
         (some "Executing assigned task: Do it"),
       Event.processCall "crawler" (exec_input taskT1),
       Event.updateTaskStatus "t1" TaskStatus.blocked] ++
        notify_task_failure_events "crawler" "t1" "Do it" "boom" ++
        [Event.logActivity "system" "task_blocked_error"
           (Details.blockedError "t1" "crawler" "boom")] ∧
    ((execute_assigned_task { tasks := [taskT1] } ["crawler"] (Except.error "boom")
        "crawler" taskT1).events.countP is_process_call) ≤ 1 := by
  refine ⟨?_, ?_, ?_⟩
  · have h := execute_assigned_task_spec.1 { tasks := [taskT1] } [] (Except.ok {})
      "ghost" taskT1 rfl (by decide) (by decide)
    simpa [taskT1] using h
  · have h := execute_assigned_task_spec.2.1 { tasks := [taskT1] } ["crawler"] "boom"
      "crawler" taskT1 rfl (by decide) (by decide)
    simpa [taskT1] using h
  · exact execute_assigned_task_spec.2.2.2 { tasks := [taskT1] } ["crawler"]
      (Except.error "boom") "crawler" taskT1 rfl

/-- Recognizer for queue acknowledgments in an event trace. -/
def is_ack : Event → Bool
  | Event.ackTask _ => true
  | _ => false

/-- C7: for every dequeued item, ack is issued exactly once on that item id,
after the GraphRunner.run invocation returns, regardless of outcome; a caught
failure still acks and logs a task_queue_error activity carrying the item id,
goal and error text; over a whole batch the ack events are exactly the item
ids in order. -/
theorem task_queue_worker_ack_spec :
    (∀ (ro : String → Except String Unit) (item : QueueItem),
      ∃ rest, process_queue_item ro item =
        Event.graphRun item.goal :: Event.ackTask item.id :: rest) ∧
    (∀ (ro : String → Except String Unit) (item : QueueItem),
      (process_queue_item ro item).filter is_ack = [Event.ackTask item.id]) ∧
    (∀ (ro : String → Except String Unit) (item : QueueItem) (e : String),
      ro item.goal = Except.error e →
      process_queue_item ro item =
        [Event.graphRun item.goal, Event.ackTask item.id,
         Event.logActivity "system" "task_queue_error"
           (Details.queueError item.id item.goal e)]) ∧
    (∀ (ro : String → Except String Unit) (items : List QueueItem),
      (process_batch ro items).filter is_ack =
        items.map (fun it => Event.ackTask it.id)) := by
  refine ⟨?_, ?_, ?_, ?_⟩
  · intro ro item
    cases h : ro item.goal with
    | ok u => exact ⟨[], by simp [process_queue_item, h]⟩
    | error e =>
        exact ⟨[Event.logActivity "system" "task_queue_error"
          (Details.queueError item.id item.goal e)], by simp [process_queue_item, h]⟩
  · intro ro item
    cases h : ro item.goal with
    | ok u => simp [process_queue_item, h, is_ack]
    | error e => simp [process_queue_item, h, is_ack]
  · intro ro item e h
    simp [process_queue_item, h]
  · intro ro items
    induction items with
    | nil => rfl
    | cons it rest ih =>
        have hsplit : process_batch ro (it :: rest) =
            process_queue_item ro it ++ process_batch ro rest := rfl
        rw [hsplit, List.filter_append, ih]
        cases h : ro it.goal with
        | ok u => simp [process_queue_item, h, is_ack]
        | error e => simp [process_queue_item, h, is_ack]

/-- Witness for C7: a failing goal is still acknowledged exactly once and the
task_queue_error activity carries id, goal and error. -/
theorem task_queue_worker_ack_spec_witness :
    process_queue_item (fun g => if g = "bad goal" then Except.error "boom"
        else Except.ok ()) { id := "m1", goal := "bad goal" } =
      [Event.graphRun "bad goal", Event.ackTask "m1",
       Event.logActivity "system" "task_queue_error"
         (Details.queueError "m1" "bad goal" "boom")] ∧
    (process_queue_item (fun g => if g = "bad goal" then Except.error "boom"
        else Except.ok ()) { id := "m1", goal := "bad goal" }).filter is_ack =
      [Event.ackTask "m1"] :=
  ⟨task_queue_worker_ack_spec.2.2.1
      (fun g => if g = "bad goal" then Except.error "boom" else Except.ok ())
      { id := "m1", goal := "bad goal" } "boom" (by simp),
   task_queue_worker_ack_spec.2.1
      (fun g => if g = "bad goal" then Except.error "boom" else Except.ok ())
      { id := "m1", goal := "bad goal" }⟩

/-- C8: GraphExecutionService.run is a total function of the graph outcome
(the try/except swallows every exception, so nothing propagates): a
successful invocation finalizes the primary task, then dispatches idle
agents, then logs a graph_complete activity carrying the delegated-worker
list, in that order; a failed invocation logs only a graph_error activity
with the goal and error text. -/
theorem graph_execution_run_spec :
    (∀ (result : OfficeState) (goal : String),
      graph_execution_run (Except.ok result) goal =
        [Event.graphInvoke, Event.finalizeCall result, Event.dispatchIdleCall,
         Event.logActivity "system" "graph_complete"
           (Details.graphComplete goal result.delegated_agents)]) ∧
    (∀ (e : String) (goal : String),
      graph_execution_run (Except.error e) goal =
        [Event.graphInvoke,
         Event.logActivity "system" "graph_error" (Details.graphError goal e)]) :=
  ⟨fun _ _ => rfl, fun _ _ => rfl⟩

theorem dstep_inv : ∀ {s t : DispatchState}, DInv s → DStep s t → DInv t := by
  intro s t hs h
  obtain ⟨hq, hf⟩ := hs
  cases h with
  | queueAcquire h1 h2 =>
      refine ⟨fun _ => rfl, fun hc => ?_⟩
      have e1 := hf hc
      rw [h2] at e1
      exact Option.noConfusion e1
  | queueSkip h1 h2 =>
      refine ⟨fun hc => by simp at hc, fun hc => hf hc⟩
  | queueRelease h =>
      refine ⟨fun hc => by simp at hc, fun hc => ?_⟩
      have e1 := hf hc
      have e2 := hq h
      rw [e1] at e2
      exact absurd e2 (by decide)
  | finalizeAcquire h1 h2 =>
      refine ⟨fun hc => ?_, fun _ => rfl⟩
      have e1 := hq hc
      rw [h2] at e1
      exact Option.noConfusion e1
  | finalizeRelease h =>
      refine ⟨fun hc => ?_, fun hc => by simp at hc⟩
      have e1 := hq hc
      have e2 := hf h
      rw [e1] at e2
      exact absurd e2 (by decide)

theorem reachable_inv (s : DispatchState)
    (h : Relation.ReflTransGen DStep initDispatch s) : DInv s := by
  induction h with
  | refl =>
      exact ⟨fun hc => absurd hc (by decide), fun hc => absurd hc (by decide)⟩
  | tail h1 h2 ih => exact dstep_inv ih h2

/-- C3: in the cooperative interleaving model of one worker lock, a
run_agent_queue drain (its critical section contains execute_assigned_task)
and a finalize_primary_task body for the same worker are never simultaneously
inside their critical sections in any reachable state; and any step taken
from a state where run_agent_queue is at its lock check while the lock is
held either belongs to the other coroutine or is the immediate no-op return
that does no work (queueRan, the lock and the other coroutine unchanged). -/
theorem per_worker_lock_serializes :
    (∀ s : DispatchState, Relation.ReflTransGen DStep initDispatch s →
      ¬(s.queueProc = Proc3.cs ∧ s.finalizeProc = Proc3.cs)) ∧
    (∀ s t : DispatchState, DStep s t → s.queueProc = Proc3.start → s.lock ≠ none →
      (t.queueProc = Proc3.start ∨
        (t.queueProc = Proc3.finished ∧ t.queueRan = s.queueRan ∧
         t.lock = s.lock ∧ t.finalizeProc = s.finalizeProc))) := by
  constructor
  · intro s hr hcs
    obtain ⟨h1, h2⟩ := hcs
    obtain ⟨i1, i2⟩ := reachable_inv s hr
    have e1 := i1 h1
    have e2 := i2 h2
    rw [e1] at e2
    exact absurd e2 (by decide)
  · intro s t h hq hl
    cases h with
    | queueAcquire h1 h2 => exact absurd h2 hl
    | queueSkip h1 h2 => exact Or.inr ⟨rfl, rfl, rfl, rfl⟩
    | queueRelease h =>
        rw [hq] at h
        exact absurd h (by decide)
    | finalizeAcquire h1 h2 => exact Or.inl hq
    | finalizeRelease h => exact Or.inl hq

/-- Witness for C3: the initial state is reachable and not doubly locked, and
from a concrete state where finalize holds the lock, the run_agent_queue
check step is the immediate no-op return. -/
theorem per_worker_lock_serializes_witness :
    (¬(initDispatch.queueProc = Proc3.cs ∧ initDispatch.finalizeProc = Proc3.cs)) ∧
    (({ queueProc := Proc3.finished, finalizeProc := Proc3.cs,
        lock := some LockOwner.byFinalize, queueRan := false } : DispatchState).queueProc =
          Proc3.start ∨
      (({ queueProc := Proc3.finished, finalizeProc := Proc3.cs,
          lock := some LockOwner.byFinalize, queueRan := false } : DispatchState).queueProc =
            Proc3.finished ∧
        ({ queueProc := Proc3.finished, finalizeProc := Proc3.cs,
           lock := some LockOwner.byFinalize, queueRan := false } : DispatchState).queueRan =
          ({ queueProc := Proc3.start, finalizeProc := Proc3.cs,
             lock := some LockOwner.byFinalize, queueRan := false } : DispatchState).queueRan ∧
        ({ queueProc := Proc3.finished, finalizeProc := Proc3.cs,
           lock := some LockOwner.byFinalize, queueRan := false } : DispatchState).lock =
          ({ queueProc := Proc3.start, finalizeProc := Proc3.cs,
             lock := some LockOwner.byFinalize, queueRan := false } : DispatchState).lock ∧
        ({ queueProc := Proc3.finished, finalizeProc := Proc3.cs,
           lock := some LockOwner.byFinalize, queueRan := false } : DispatchState).finalizeProc =
          ({ queueProc := Proc3.start, finalizeProc := Proc3.cs,
             lock := some LockOwner.byFinalize, queueRan := false } : DispatchState).finalizeProc)) := by
  constructor
  · exact per_worker_lock_serializes.1 initDispatch Relation.ReflTransGen.refl
  · exact per_worker_lock_serializes.2
      { queueProc := Proc3.start, finalizeProc := Proc3.cs,
        lock := some LockOwner.byFinalize, queueRan := false }
      { queueProc := Proc3.finished, finalizeProc := Proc3.cs,
        lock := some LockOwner.byFinalize, queueRan := false }
      (DStep.queueSkip _ rfl (by decide)) rfl (by decide)

/-- Unfolding of dispatch_idle_agents with the global lock free. -/
theorem dispatch_idle_agents_free (ags : List AgentRow) (reg : List String)
    (f : String → Except String Unit) :
    dispatch_idle_agents false ags reg f =
      (if (idle_registered_ids ags reg).isEmpty then ([], [])
       else ((idle_registered_ids ags reg).map Event.runAgentQueueCall,
             (idle_registered_ids ags reg).map f)) := rfl

/-- Counterexample for C9: a worker that is Idle but not registered in the
agent registry is skipped by dispatch_idle_agents, so run_agent_queue is not
invoked for every Idle worker. -/
theorem dispatch_idle_agents_skips_unregistered :
    Event.runAgentQueueCall "ghost" ∉
      (dispatch_idle_agents false [{ id := "ghost", status := AgentStatus.idle }] []
        (fun _ => Except.ok ())).1 := by
  decide

/-- C9 (amended): dispatch_idle_agents with the global lock free invokes
run_agent_queue for every worker whose status is Idle and whose id is
registered in the agent registry; the set of invocations does not depend on
the individual sweep outcomes (asyncio.gather with return_exceptions
collects failures as values, so one failing sweep aborts no other); and a
call that observes the global lock held does no work and returns
immediately. -/
theorem dispatch_idle_agents_spec :
    (∀ (ags : List AgentRow) (reg : List String)
       (f g : String → Except String Unit),
      (dispatch_idle_agents false ags reg f).1 =
        (dispatch_idle_agents false ags reg g).1) ∧
    (∀ (ags : List AgentRow) (reg : List String)
       (f : String → Except String Unit) (a : AgentRow),
      a ∈ ags → a.status = AgentStatus.idle → a.id ∈ reg →
      Event.runAgentQueueCall a.id ∈ (dispatch_idle_agents false ags reg f).1) ∧
    (∀ (ags : List AgentRow) (reg : List String)
       (f : String → Except String Unit),
      dispatch_idle_agents true ags reg f = ([], [])) := by
  refine ⟨?_, ?_, ?_⟩
  · intro ags reg f g
    rw [dispatch_idle_agents_free, dispatch_idle_agents_free]
    cases hb : (idle_registered_ids ags reg).isEmpty with
    | true => simp only [hb, if_true]
    | false => simp only [hb, Bool.false_eq_true, if_false]
  · intro ags reg f a ha hst hreg
    have hfil : a ∈ ags.filter
        (fun x => x.status == AgentStatus.idle && reg.contains x.id) :=
      List.mem_filter.mpr ⟨ha, by simp [hst, hreg]⟩
    have hid : a.id ∈ idle_registered_ids ags reg :=
      List.mem_map_of_mem _ hfil
    have hb : (idle_registered_ids ags reg).isEmpty = false := by
      cases hb : (idle_registered_ids ags reg).isEmpty with
      | false => rfl
      | true =>
          rw [List.isEmpty_iff] at hb
          rw [hb] at hid
          exact absurd hid (List.not_mem_nil _)
    rw [dispatch_idle_agents_free]
    simp only [hb, Bool.false_eq_true, if_false]
    exact List.mem_map_of_mem Event.runAgentQueueCall hid
  · intro ags reg f
    rfl

/-- Witness for C9: an idle registered worker is swept even when its own
sweep outcome is a failure, and a call under the held lock does nothing. -/
theorem dispatch_idle_agents_spec_witness :
    Event.runAgentQueueCall "crawler" ∈
      (dispatch_idle_agents false [{ id := "crawler", status := AgentStatus.idle }]
        ["crawler"] (fun _ => Except.error "boom")).1 ∧
    dispatch_idle_agents true [{ id := "crawler", status := AgentStatus.idle }]
      ["crawler"] (fun _ => Except.error "boom") = ([], []) :=
  ⟨dispatch_idle_agents_spec.2.1 [{ id := "crawler", status := AgentStatus.idle }]
      ["crawler"] (fun _ => Except.error "boom")
      { id := "crawler", status := AgentStatus.idle }
      (by decide) rfl (by decide),
   dispatch_idle_agents_spec.2.2 [{ id := "crawler", status := AgentStatus.idle }]
      ["crawler"] (fun _ => Except.error "boom")⟩

/-- Concrete agent metadata used by the C10 counterexample and witness. -/
def metaResearcher : AgentMeta :=
  { agent_id := "researcher", name := "R", role := "Researcher", default_room := "Desks" }

/-- Counterexample for C10: a lifecycle failure whose exception text is empty
(Python str of a bare Exception) takes the error path — the second event is
the status-Error room-reset update — yet leaves the RunState error string
empty, so this graph-node failure does not surface as a non-empty error
string. -/
theorem base_agent_process_empty_error_text :
    ((base_agent_process metaResearcher (Except.error "") (fun s => Except.ok s)
        (create_initial_state "g")).1).error = "" ∧
    ((base_agent_process metaResearcher (Except.error "") (fun s => Except.ok s)
        (create_initial_state "g")).2).get? 1 =
      some (Event.updateAgent "researcher" (some "Desks") (some AgentStatus.error) none
        (some "Error encountered: ")) := by
  constructor
  · rfl
  · decide

/-- C10 (amended): BaseAgent.process is a total function of the chain and
execute outcomes (the surrounding try/except swallows every lifecycle
failure, so no exception escapes the node): on any failure it flips the
worker to status Error, moves it back to its default room, logs an agent
error activity, stores the exception text in the state error field, and
returns the state; the stored error string is non-empty exactly when the
exception text is non-empty. -/
theorem base_agent_process_spec :
    (∀ (meta : AgentMeta) (ex : OfficeState → Except String OfficeState)
       (st : OfficeState) (e : String),
      base_agent_process meta (Except.error e) ex st =
        ({ st with error := e },
         [Event.updateAgent meta.agent_id none (some AgentStatus.working) none
            (some ("Analyzing request and preparing " ++ meta.role.toLower ++
              " response...")),
          Event.updateAgent meta.agent_id
            (some (if meta.default_room ≠ "" then meta.default_room else "Desks"))
            (some AgentStatus.error) none
            (some ("Error encountered: " ++ pyTake e 200)),
          Event.logActivity meta.agent_id (meta.agent_id ++ "_error")
            (Details.agentError (pyTake e 500))])) ∧
    (∀ (meta : AgentMeta) (p : String) (ex : OfficeState → Except String OfficeState)
       (st : OfficeState) (e : String),
      ex st = Except.error e →
      base_agent_process meta (Except.ok p) ex st =
        ({ st with error := e },
         [Event.updateAgent meta.agent_id none (some AgentStatus.working) none
            (some ("Analyzing request and preparing " ++ meta.role.toLower ++
              " response...")),
          Event.updateAgent meta.agent_id
            (some (if meta.default_room ≠ "" then meta.default_room else "Desks"))
            (some AgentStatus.error) none
            (some ("Error encountered: " ++ pyTake e 200)),
          Event.logActivity meta.agent_id (meta.agent_id ++ "_error")
            (Details.agentError (pyTake e 500))])) ∧
    (∀ (meta : AgentMeta) (ex : OfficeState → Except String OfficeState)
       (st : OfficeState) (e : String), e ≠ "" →
      ((base_agent_process meta (Except.error e) ex st).1).error ≠ "") := by
  refine ⟨?_, ?_, ?_⟩
  · intro meta ex st e
    rfl
  · intro meta p ex st e he
    simp [base_agent_process, he]
  · intro meta ex st e he
    simpa [base_agent_process] using he

/-- Witness for C10: a failing execute step with non-empty text produces the
full error trace and a non-empty state error string. -/
theorem base_agent_process_spec_witness :
    base_agent_process metaResearcher (Except.ok "Out")
        (fun _ => Except.error "boom") (create_initial_state "g") =
      ({ create_initial_state "g" with error := "boom" },
       [Event.updateAgent metaResearcher.agent_id none (some AgentStatus.working) none
          (some ("Analyzing request and preparing " ++ metaResearcher.role.toLower ++
            " response...")),
        Event.updateAgent metaResearcher.agent_id
          (some (if metaResearcher.default_room ≠ "" then metaResearcher.default_room
            else "Desks"))
          (some AgentStatus.error) none
          (some ("Error encountered: " ++ pyTake "boom" 200)),
        Event.logActivity metaResearcher.agent_id (metaResearcher.agent_id ++ "_error")
          (Details.agentError (pyTake "boom" 500))]) ∧
    ((base_agent_process metaResearcher (Except.error "boom")
        (fun s => Except.ok s) (create_initial_state "g")).1).error ≠ "" :=
  ⟨base_agent_process_spec.2.1 metaResearcher "Out" (fun _ => Except.error "boom")
      (create_initial_state "g") "boom" rfl,
   base_agent_process_spec.2.2 metaResearcher (fun s => Except.ok s)
      (create_initial_state "g") "boom" (by decide)⟩

end DevSwarm
